import Mathlib

/-! Fan-out over transports: `datasync/adapters/aggregator.go`

A shallow embedding of package `adapters`.

* Go interface values (`datasync.TransportAdapter`, `datasync.WatchDataRegistration`,
  channels, `proto.Message`) are handles of abstract types `T`, `R`, `CC`, `RC`, `M`.
* What a handle does when one of its methods is called is given by an environment `Env`
  acting on an abstract world `W`, so a transport may answer differently on each call.
* Every method call that the aggregator makes on a handle is appended to a trace.
* A Go `error` is `Option GoError`, with `none` for `nil`.
-/

set_option autoImplicit false

namespace adapters

/-- A non-nil Go `error` value, identified by its message. -/
structure GoError where
  msg : String
deriving DecidableEq, Repr

/-- The call `fmt.Errorf(format)` with no further arguments: a non-nil error carrying `format`. -/
def fmt.Errorf (format : String) : Option GoError :=
  some ⟨format⟩

/-- One method call made on a transport or on a per-transport registration. -/
inductive Event (T R CC RC M : Type) where
  | WatchData (transport : T) (resyncName : String) (changeChan : CC) (resyncChan : RC)
      (keyPrefixes : List String)
  | PublishData (transport : T) (key : String) (data : M)
  | Close (registration : R)
deriving DecidableEq, Repr

/-- The behaviour of the interface values the package works with. -/
structure Env (T R W CC RC M : Type) where
  /-- Method `WatchData` of `datasync.TransportAdapter`: returns `(registration, error)`. -/
  WatchData : T → String → CC → RC → List String → W → (R × Option GoError) × W
  /-- Method `PublishData` of `datasync.TransportAdapter`. -/
  PublishData : T → String → M → W → Option GoError × W
  /-- Method `Close` of `datasync.WatchDataRegistration`. -/
  Close : R → W → Option GoError × W
  /-- Modelled from the spec: the error with which `safeclose.CloseAll`, whose source is not
  among the files, reports the collected close results; section 4.2 leaves the reporting
  policy open, so it is a parameter. -/
  CloseErrors : List (Option GoError) → GoError

/-- The program state: the world the transports live in, and the calls made so far. -/
structure State (T R W CC RC M : Type) where
  world : W
  trace : List (Event T R CC RC M)

/-- Type `TransportAggregator`: lines 30-32. -/
structure TransportAggregator (T : Type) where
  Adapters : List T
deriving DecidableEq, Repr

/-- Type `AggregatedRegistration`: lines 35-37. -/
structure AggregatedRegistration (R : Type) where
  Registrations : List R
deriving DecidableEq, Repr

section Calls

variable {T R W CC RC M : Type}

/-- The call `transport.WatchData(resyncName, changeChan, resyncChan, keyPrefixes...)`. -/
def callWatchData (env : Env T R W CC RC M) (transport : T) (resyncName : String)
    (changeChan : CC) (resyncChan : RC) (keyPrefixes : List String)
    (s : State T R W CC RC M) : (R × Option GoError) × State T R W CC RC M :=
  let out := env.WatchData transport resyncName changeChan resyncChan keyPrefixes s.world
  (out.1, { world := out.2,
            trace := s.trace ++
              [Event.WatchData transport resyncName changeChan resyncChan keyPrefixes] })

/-- The call `transport.PublishData(key, data)`. -/
def callPublishData (env : Env T R W CC RC M) (transport : T) (key : String) (data : M)
    (s : State T R W CC RC M) : Option GoError × State T R W CC RC M :=
  let out := env.PublishData transport key data s.world
  (out.1, { world := out.2, trace := s.trace ++ [Event.PublishData transport key data] })

/-- The call `registration.Close()`. -/
def callClose (env : Env T R W CC RC M) (registration : R)
    (s : State T R W CC RC M) : Option GoError × State T R W CC RC M :=
  let out := env.Close registration s.world
  (out.1, { world := out.2, trace := s.trace ++ [Event.Close registration] })

/-- The loop of `WatchData`, lines 43-49, followed by the final return of lines 51-53.
The first argument is what is left of `ta.Adapters`, the second the slice `registrations`. -/
def TransportAggregator.WatchData.loop (env : Env T R W CC RC M) (resyncName : String)
    (changeChan : CC) (resyncChan : RC) (keyPrefixes : List String) :
    List T → List R → State T R W CC RC M →
      (Option (AggregatedRegistration R) × Option GoError) × State T R W CC RC M
  | [], registrations, s => ((some { Registrations := registrations }, none), s)
  | transport :: rest, registrations, s =>
    let out := callWatchData env transport resyncName changeChan resyncChan keyPrefixes s
    match out.1.2 with
    | some err => ((none, some err), out.2)
    | none =>
      TransportAggregator.WatchData.loop env resyncName changeChan resyncChan keyPrefixes
        rest (registrations ++ [out.1.1]) out.2

/-- Method `(*TransportAggregator).WatchData`, lines 40-54. The returned registration is
`none` for Go's `nil` and `some r` for `&AggregatedRegistration{...}`. -/
def TransportAggregator.WatchData (env : Env T R W CC RC M) (ta : TransportAggregator T)
    (resyncName : String) (changeChan : CC) (resyncChan : RC) (keyPrefixes : List String)
    (s : State T R W CC RC M) :
    (Option (AggregatedRegistration R) × Option GoError) × State T R W CC RC M :=
  TransportAggregator.WatchData.loop env resyncName changeChan resyncChan keyPrefixes
    ta.Adapters [] s

/-- The loop of `PublishData`, lines 62-67, followed by `return wasError`.
The first argument is what is left of `ta.Adapters`, the second the variable `wasError`. -/
def TransportAggregator.PublishData.loop (env : Env T R W CC RC M) (key : String) (data : M) :
    List T → Option GoError → State T R W CC RC M → Option GoError × State T R W CC RC M
  | [], wasError, s => (wasError, s)
  | transport :: rest, wasError, s =>
    let out := callPublishData env transport key data s
    match out.1 with
    | some err => TransportAggregator.PublishData.loop env key data rest (some err) out.2
    | none => TransportAggregator.PublishData.loop env key data rest wasError out.2

/-- Method `(*TransportAggregator).PublishData`, lines 57-69. -/
def TransportAggregator.PublishData (env : Env T R W CC RC M) (ta : TransportAggregator T)
    (key : String) (data : M) (s : State T R W CC RC M) :
    Option GoError × State T R W CC RC M :=
  if ta.Adapters.length = 0 then
    (fmt.Errorf "No transport is availabel in aggregator", s)
  else
    TransportAggregator.PublishData.loop env key data ta.Adapters none s

/-- A Go value handed over as `interface{}`: a registration, which has the method `Close`,
or a slice of registrations. A slice type has no methods, so the slice itself has no
`Close`, whatever its elements have. -/
inductive Object (R : Type) where
  | registration (r : R)
  | slice (rs : List R)
deriving DecidableEq, Repr

/-- Modelled from the spec: the loop of `safeclose.CloseAll`, whose source is not among the
files. Section 4.2: it "invokes Close on every contained" object, "regardless of whether
earlier ones failed", collecting every result ("collect all"). An object that has no
method `Close` cannot be closed: nothing is called on it and its result is nil.
The first argument is what is left of the objects, the second the collected results. -/
def safeclose.CloseAll.loop (env : Env T R W CC RC M) :
    List (Object R) → List (Option GoError) → State T R W CC RC M →
      List (Option GoError) × State T R W CC RC M
  | [], details, s => (details, s)
  | Object.registration r :: rest, details, s =>
    let out := callClose env r s
    safeclose.CloseAll.loop env rest (details ++ [out.1]) out.2
  | Object.slice _ :: rest, details, s =>
    safeclose.CloseAll.loop env rest (details ++ [none]) s

/-- Modelled from the spec: `safeclose.CloseAll`, whose source is not among the files.
Its arguments are the objects to close. Section 4.2: after closing every one of them it
"returns an error if any contained Close failed" and "surfaces the aggregate failure";
which error that is is left to `env.CloseErrors`. The first result is the list of the
collected close results. -/
def safeclose.CloseAll (env : Env T R W CC RC M) (objs : List (Object R))
    (s : State T R W CC RC M) :
    (List (Option GoError) × Option GoError) × State T R W CC RC M :=
  let out := safeclose.CloseAll.loop env objs [] s
  if out.1.any Option.isSome then
    ((out.1, some (env.CloseErrors out.1)), out.2)
  else
    ((out.1, none), out.2)

/-- Method `(*AggregatedRegistration).Close`, lines 87-90. Line 88 is
`safeclose.CloseAll(wa.Registrations)`: the slice is passed as it is, not spread with
`...`, and Go does not convert a `[]datasync.WatchDataRegistration` into a list of objects.
`CloseAll` therefore receives one object, the slice. -/
def AggregatedRegistration.Close (env : Env T R W CC RC M) (wa : AggregatedRegistration R)
    (s : State T R W CC RC M) : Option GoError × State T R W CC RC M :=
  let out := safeclose.CloseAll env [Object.slice wa.Registrations] s
  (out.1.2, out.2)

end Calls

section Init

variable {K SL B Wt G T W : Type}

/-- The constructors that the registration methods call; none of them is among the source
files, so each is a parameter. They may act on the world. -/
structure Deps (K SL B Wt G T W : Type) where
  /-- Method `(*servicelabel.Plugin).GetAgentPrefix`. -/
  GetAgentPrefix : SL → W → String × W
  /-- Method `NewBroker` of `keyval.KvBytesPlugin`. -/
  NewBroker : K → String → W → B × W
  /-- Method `NewWatcher` of `keyval.KvBytesPlugin`. -/
  NewWatcher : K → String → W → Wt × W
  /-- Function `dbsync.NewAdapter(name, broker, watcher)`. -/
  dbsyncNewAdapter : String → B → Wt → W → T × W
  /-- Function `grpcsync.NewAdapter()`. -/
  grpcsyncNewAdapter : W → G × W
  /-- The literal `&syncbase.Adapter{Watcher: grpcAdapter}`. -/
  syncbaseAdapter : G → W → T × W

/-- Lines 73-75 of `InitTransport`: the value of the local variable `adapter`. -/
def TransportAggregator.InitTransport.adapter (deps : Deps K SL B Wt G T W)
    (kvPlugin : K) (sl : SL) (name : String) (w : W) : T × W :=
  let p1 := deps.GetAgentPrefix sl w
  let broker := deps.NewBroker kvPlugin p1.1 p1.2
  let p2 := deps.GetAgentPrefix sl broker.2
  let watcher := deps.NewWatcher kvPlugin p2.1 p2.2
  deps.dbsyncNewAdapter name broker.1 watcher.1 watcher.2

/-- Method `(*TransportAggregator).InitTransport`, lines 72-77. The receiver is a pointer,
so the updated aggregator is returned. -/
def TransportAggregator.InitTransport (deps : Deps K SL B Wt G T W)
    (ta : TransportAggregator T) (kvPlugin : K) (sl : SL) (name : String) (w : W) :
    TransportAggregator T × W :=
  let adapter := TransportAggregator.InitTransport.adapter deps kvPlugin sl name w
  ({ Adapters := ta.Adapters ++ [adapter.1] }, adapter.2)

/-- Lines 81-82 of `InitGrpcTransport`: the value of the local variable `adapter`. -/
def TransportAggregator.InitGrpcTransport.adapter (deps : Deps K SL B Wt G T W) (w : W) :
    T × W :=
  let grpcAdapter := deps.grpcsyncNewAdapter w
  deps.syncbaseAdapter grpcAdapter.1 grpcAdapter.2

/-- Method `(*TransportAggregator).InitGrpcTransport`, lines 80-84. -/
def TransportAggregator.InitGrpcTransport (deps : Deps K SL B Wt G T W)
    (ta : TransportAggregator T) (w : W) : TransportAggregator T × W :=
  let adapter := TransportAggregator.InitGrpcTransport.adapter deps w
  ({ Adapters := ta.Adapters ++ [adapter.1] }, adapter.2)

/-- A call of one of the two registration methods, with its arguments. -/
inductive InitCall (K SL : Type) where
  | InitTransport (kvPlugin : K) (sl : SL) (name : String)
  | InitGrpcTransport
deriving DecidableEq, Repr

/-- Run one registration call on the aggregator. -/
def InitCall.run (deps : Deps K SL B Wt G T W) (ta : TransportAggregator T) :
    InitCall K SL → W → TransportAggregator T × W
  | .InitTransport kvPlugin sl name, w => ta.InitTransport deps kvPlugin sl name w
  | .InitGrpcTransport, w => ta.InitGrpcTransport deps w

/-- Run a sequence of registration calls on the aggregator, one after another. -/
def InitCall.runAll (deps : Deps K SL B Wt G T W) :
    TransportAggregator T → List (InitCall K SL) → W → TransportAggregator T × W
  | ta, [], w => (ta, w)
  | ta, call :: rest, w =>
    let out := InitCall.run deps ta call w
    InitCall.runAll deps out.1 rest out.2

/-- The transport that one registration call constructs. -/
def InitCall.adapter (deps : Deps K SL B Wt G T W) : InitCall K SL → W → T × W
  | .InitTransport kvPlugin sl name, w =>
    TransportAggregator.InitTransport.adapter deps kvPlugin sl name w
  | .InitGrpcTransport, w => TransportAggregator.InitGrpcTransport.adapter deps w

/-- The transports that a sequence of registration calls constructs, in call order. -/
def InitCall.adapters (deps : Deps K SL B Wt G T W) : List (InitCall K SL) → W → List T
  | [], _ => []
  | call :: rest, w =>
    let out := InitCall.adapter deps call w
    out.1 :: InitCall.adapters deps rest out.2

end Init

section Answers

variable {T R W CC RC M : Type}

/-- What the transports `ts` answer to `PublishData(key, data)` when they are called one
after another starting in world `w`: the i-th entry is the answer of the i-th transport. -/
def publishAnswers (env : Env T R W CC RC M) (key : String) (data : M) :
    List T → W → List (Option GoError)
  | [], _ => []
  | transport :: rest, w =>
    let out := env.PublishData transport key data w
    out.1 :: publishAnswers env key data rest out.2

/-- What the transports `ts` answer to `WatchData(resyncName, changeChan, resyncChan,
keyPrefixes...)` when they are called one after another starting in world `w`. -/
def watchAnswers (env : Env T R W CC RC M) (resyncName : String) (changeChan : CC)
    (resyncChan : RC) (keyPrefixes : List String) : List T → W → List (R × Option GoError)
  | [], _ => []
  | transport :: rest, w =>
    let out := env.WatchData transport resyncName changeChan resyncChan keyPrefixes w
    out.1 :: watchAnswers env resyncName changeChan resyncChan keyPrefixes rest out.2

/-- What the registrations `rs` answer to `Close()` when they are closed one after another
starting in world `w`. -/
def closeAnswers (env : Env T R W CC RC M) : List R → W → List (Option GoError)
  | [], _ => []
  | registration :: rest, w =>
    let out := env.Close registration w
    out.1 :: closeAnswers env rest out.2

/-- The last non-nil error of a list of answers, `none` when there is none. -/
def lastFailure : List (Option GoError) → Option GoError
  | [] => none
  | a :: rest =>
    match lastFailure rest with
    | some err => some err
    | none => a

/-- Whether an event is a `Close` call. -/
def Event.isClose : Event T R CC RC M → Bool
  | .Close _ => true
  | _ => false

end Answers

section FanOut

variable {T R W CC RC M : Type}

/-- A call of one of the two fan-out methods, with its arguments. -/
inductive FanOutCall (CC RC M : Type) where
  | WatchData (resyncName : String) (changeChan : CC) (resyncChan : RC)
      (keyPrefixes : List String)
  | PublishData (key : String) (data : M)
deriving DecidableEq, Repr

/-- Run one fan-out call: the receiver `*ta` after the call, and the state after it.
Lines 40-69 hold no assignment to `ta.Adapters` nor to one of its elements (the loop
variable `transport` is a copy of the element), so the receiver comes back as it went in.
The transports act on the world only; they hold no pointer to the aggregator. -/
def FanOutCall.run (env : Env T R W CC RC M) (ta : TransportAggregator T) :
    FanOutCall CC RC M → State T R W CC RC M → TransportAggregator T × State T R W CC RC M
  | .WatchData resyncName changeChan resyncChan keyPrefixes, s =>
    (ta, (ta.WatchData env resyncName changeChan resyncChan keyPrefixes s).2)
  | .PublishData key data, s => (ta, (ta.PublishData env key data s).2)

/-- Run a sequence of fan-out calls on the aggregator, one after another. -/
def FanOutCall.runAll (env : Env T R W CC RC M) :
    TransportAggregator T → List (FanOutCall CC RC M) → State T R W CC RC M →
      TransportAggregator T × State T R W CC RC M
  | ta, [], s => (ta, s)
  | ta, call :: rest, s =>
    let out := FanOutCall.run env ta call s
    FanOutCall.runAll env out.1 rest out.2

end FanOut

/-! ## A concrete world

Transports and registrations are numbers, the world counts the calls made so far.
Transport 1 is `A` and always succeeds, 2 is `B` and always fails with `eB`, 3 is `C` and
always succeeds, 4 is a failing `C`, with error `eC`. A registration is numbered
`10 * transport + calls so far`; closing a registration of transport 1 fails. -/

/-- The error of transport `B`. -/
def eB : GoError := ⟨"eB"⟩

/-- The error of the failing transport `C`. -/
def eC : GoError := ⟨"eC"⟩

/-- The error of closing a registration of transport `A`. -/
def eCloseA : GoError := ⟨"close A"⟩

/-- The answer of transport `t` in the concrete world. -/
def demoAnswer (t : Nat) : Option GoError :=
  if t = 2 then some eB else if t = 4 then some eC else none

/-- The concrete environment. -/
def demoEnv : Env Nat Nat Nat Nat Nat String where
  WatchData := fun t _ _ _ _ w => ((10 * t + w, demoAnswer t), w + 1)
  PublishData := fun t _ _ w => (demoAnswer t, w + 1)
  Close := fun r w => (if r / 10 = 1 then some eCloseA else none, w + 1)
  CloseErrors := fun _ => ⟨"close errors"⟩

/-- The concrete initial state: nothing has been called yet. -/
def demoState : State Nat Nat Nat Nat Nat String :=
  { world := 0, trace := [] }

/-- Concrete constructors: the adapter of `InitTransport` is numbered by the length of its
name, the adapter of `InitGrpcTransport` is transport 3. -/
def demoDeps : Deps Unit Unit Unit Unit Unit Nat Nat where
  GetAgentPrefix := fun _ w => ("/agent/", w)
  NewBroker := fun _ _ w => ((), w)
  NewWatcher := fun _ _ w => ((), w)
  dbsyncNewAdapter := fun name _ _ w => (name.length, w)
  grpcsyncNewAdapter := fun w => ((), w)
  syncbaseAdapter := fun _ w => (3, w)

/-! ## Lemmas on the loops -/

section Lemmas

variable {T R W CC RC M : Type}

theorem publishAnswers_length (env : Env T R W CC RC M) (key : String) (data : M)
    (ts : List T) (w : W) : (publishAnswers env key data ts w).length = ts.length := by
  induction ts generalizing w with
  | nil => rfl
  | cons t rest ih => simp [publishAnswers, ih]

theorem watchAnswers_length (env : Env T R W CC RC M) (resyncName : String) (changeChan : CC)
    (resyncChan : RC) (keyPrefixes : List String) (ts : List T) (w : W) :
    (watchAnswers env resyncName changeChan resyncChan keyPrefixes ts w).length
      = ts.length := by
  induction ts generalizing w with
  | nil => rfl
  | cons t rest ih => simp [watchAnswers, ih]

theorem closeAnswers_length (env : Env T R W CC RC M) (rs : List R) (w : W) :
    (closeAnswers env rs w).length = rs.length := by
  induction rs generalizing w with
  | nil => rfl
  | cons r rest ih => simp [closeAnswers, ih]

/-- The publish loop calls every transport it is given, in order. -/
theorem PublishData_loop_trace (env : Env T R W CC RC M) (key : String) (data : M)
    (ts : List T) (wasError : Option GoError) (s : State T R W CC RC M) :
    (TransportAggregator.PublishData.loop env key data ts wasError s).2.trace
      = s.trace ++ ts.map (fun t => Event.PublishData t key data) := by
  induction ts generalizing wasError s with
  | nil => simp [TransportAggregator.PublishData.loop]
  | cons t rest ih =>
    simp only [TransportAggregator.PublishData.loop]
    cases h : (callPublishData env t key data s).1 with
    | none => simp [ih, callPublishData]
    | some err => simp [ih, callPublishData]

/-- The publish loop returns the last failure among the answers, and `wasError` when no
transport fails. -/
theorem PublishData_loop_result (env : Env T R W CC RC M) (key : String) (data : M)
    (ts : List T) (wasError : Option GoError) (s : State T R W CC RC M) :
    (TransportAggregator.PublishData.loop env key data ts wasError s).1
      = match lastFailure (publishAnswers env key data ts s.world) with
        | some err => some err
        | none => wasError := by
  induction ts generalizing wasError s with
  | nil => simp [TransportAggregator.PublishData.loop, publishAnswers, lastFailure]
  | cons t rest ih =>
    simp only [TransportAggregator.PublishData.loop, publishAnswers, lastFailure]
    cases h : (env.PublishData t key data s.world).1 with
    | none =>
      simp only [callPublishData, h, ih]
      cases lastFailure (publishAnswers env key data rest (env.PublishData t key data s.world).2)
        <;> rfl
    | some err =>
      simp only [callPublishData, h, ih]
      cases lastFailure (publishAnswers env key data rest (env.PublishData t key data s.world).2)
        <;> rfl

theorem lastFailure_eq_none (l : List (Option GoError)) :
    lastFailure l = none ↔ ∀ a ∈ l, a = none := by
  induction l with
  | nil => simp [lastFailure]
  | cons a rest ih =>
    simp only [lastFailure, List.mem_cons, forall_eq_or_imp]
    cases h : lastFailure rest with
    | none => simp [← ih, h]
    | some err =>
      simp only [← ih, h]
      simp

theorem lastFailure_eq_some (l : List (Option GoError)) (err : GoError) :
    lastFailure l = some err ↔
      ∃ i : Nat, l[i]? = some (some err) ∧
        ∀ j : Nat, i < j → ∀ e : GoError, l[j]? ≠ some (some e) := by
  induction l with
  | nil => simp [lastFailure]
  | cons a rest ih =>
    simp only [lastFailure]
    constructor
    · intro h
      cases hr : lastFailure rest with
      | none =>
        rw [hr] at h
        replace h : a = some err := h
        refine ⟨0, by simp [h], ?_⟩
        intro j hj e hje
        obtain ⟨k, rfl⟩ : ∃ k, j = k + 1 := ⟨j - 1, by omega⟩
        rw [List.getElem?_cons_succ] at hje
        have := (lastFailure_eq_none rest).1 hr _ (List.getElem?_mem hje)
        simp at this
      | some e0 =>
        rw [hr] at h
        simp only [Option.some.injEq] at h
        subst h
        obtain ⟨i, hi, hlater⟩ := ih.1 hr
        refine ⟨i + 1, by simpa using hi, ?_⟩
        intro j hj e hje
        obtain ⟨k, rfl⟩ : ∃ k, j = k + 1 := ⟨j - 1, by omega⟩
        rw [List.getElem?_cons_succ] at hje
        exact hlater k (by omega) e hje
    · rintro ⟨i, hi, hlater⟩
      cases i with
      | zero =>
        have hnone : lastFailure rest = none := by
          rw [lastFailure_eq_none]
          intro b hb
          obtain ⟨k, hk⟩ := List.getElem?_of_mem hb
          cases b with
          | none => rfl
          | some e =>
            exact absurd (by simpa using hk) (hlater (k + 1) (by omega) e)
        rw [hnone]
        simpa using hi
      | succ i =>
        have : lastFailure rest = some err := by
          rw [ih]
          refine ⟨i, by simpa using hi, ?_⟩
          intro j hj e hje
          exact hlater (j + 1) (by omega) e (by simpa using hje)
        rw [this]

/-- The watch loop, when every transport answers without error: all are called, and the
registrations are collected in order. -/
theorem WatchData_loop_ok (env : Env T R W CC RC M) (resyncName : String) (changeChan : CC)
    (resyncChan : RC) (keyPrefixes : List String) (ts : List T) (registrations : List R)
    (s : State T R W CC RC M)
    (h : ∀ a ∈ watchAnswers env resyncName changeChan resyncChan keyPrefixes ts s.world,
      a.2 = none) :
    (TransportAggregator.WatchData.loop env resyncName changeChan resyncChan keyPrefixes
        ts registrations s).1
      = (some (AggregatedRegistration.mk (registrations ++
          (watchAnswers env resyncName changeChan resyncChan keyPrefixes ts s.world).map
            Prod.fst)), none)
    ∧ (TransportAggregator.WatchData.loop env resyncName changeChan resyncChan keyPrefixes
        ts registrations s).2.trace
      = s.trace ++ ts.map
          (fun t => Event.WatchData t resyncName changeChan resyncChan keyPrefixes) := by
  induction ts generalizing registrations s with
  | nil => simp [TransportAggregator.WatchData.loop, watchAnswers]
  | cons t rest ih =>
    simp only [watchAnswers, List.mem_cons, forall_eq_or_imp] at h
    obtain ⟨h0, hrest⟩ := h
    simp only [TransportAggregator.WatchData.loop, callWatchData, h0]
    have := ih (registrations ++
        [(env.WatchData t resyncName changeChan resyncChan keyPrefixes s.world).1.1])
      { world := (env.WatchData t resyncName changeChan resyncChan keyPrefixes s.world).2,
        trace := s.trace ++
          [Event.WatchData t resyncName changeChan resyncChan keyPrefixes] } hrest
    simpa [watchAnswers] using this

/-- The watch loop, when the first failing answer is at index `i`: it returns that error
and no registration, and has called the transports up to index `i` only. -/
theorem WatchData_loop_fail (env : Env T R W CC RC M) (resyncName : String) (changeChan : CC)
    (resyncChan : RC) (keyPrefixes : List String) (ts : List T) (registrations : List R)
    (s : State T R W CC RC M) (i : Nat) (r : R) (err : GoError)
    (hi : (watchAnswers env resyncName changeChan resyncChan keyPrefixes ts s.world)[i]?
      = some (r, some err))
    (hfirst : ∀ j : Nat, j < i → ∀ a : R × Option GoError,
      (watchAnswers env resyncName changeChan resyncChan keyPrefixes ts s.world)[j]? = some a →
        a.2 = none) :
    (TransportAggregator.WatchData.loop env resyncName changeChan resyncChan keyPrefixes
        ts registrations s).1 = (none, some err)
    ∧ (TransportAggregator.WatchData.loop env resyncName changeChan resyncChan keyPrefixes
        ts registrations s).2.trace
      = s.trace ++ (ts.take (i + 1)).map
          (fun t => Event.WatchData t resyncName changeChan resyncChan keyPrefixes) := by
  induction ts generalizing registrations s i with
  | nil => simp [watchAnswers] at hi
  | cons t rest ih =>
    cases i with
    | zero =>
      simp only [watchAnswers, List.getElem?_cons_zero, Option.some.injEq] at hi
      have h2 : (env.WatchData t resyncName changeChan resyncChan keyPrefixes s.world).1.2
          = some err := by rw [hi]
      simp [TransportAggregator.WatchData.loop, callWatchData, h2]
    | succ i =>
      have h0 : (env.WatchData t resyncName changeChan resyncChan keyPrefixes s.world).1.2
          = none := hfirst 0 (by omega) _ (by simp [watchAnswers])
      simp only [watchAnswers, List.getElem?_cons_succ] at hi
      have hfirst2 : ∀ j : Nat, j < i → ∀ a : R × Option GoError,
          (watchAnswers env resyncName changeChan resyncChan keyPrefixes rest
            (env.WatchData t resyncName changeChan resyncChan keyPrefixes s.world).2)[j]?
              = some a → a.2 = none := by
        intro j hj a ha
        exact hfirst (j + 1) (by omega) a (by simpa [watchAnswers] using ha)
      simp only [TransportAggregator.WatchData.loop, callWatchData, h0]
      have := ih (registrations ++
          [(env.WatchData t resyncName changeChan resyncChan keyPrefixes s.world).1.1])
        { world := (env.WatchData t resyncName changeChan resyncChan keyPrefixes s.world).2,
          trace := s.trace ++
            [Event.WatchData t resyncName changeChan resyncChan keyPrefixes] } i hi hfirst2
      simpa using this

/-- A list of answers with a failure has a first failure. -/
theorem exists_first_failure (l : List (R × Option GoError))
    (h : ∃ a ∈ l, a.2 ≠ none) :
    ∃ (i : Nat) (r : R) (err : GoError), l[i]? = some (r, some err) ∧
      ∀ j : Nat, j < i → ∀ a : R × Option GoError, l[j]? = some a → a.2 = none := by
  induction l with
  | nil => simp at h
  | cons a rest ih =>
    cases ha : a.2 with
    | some err =>
      refine ⟨0, a.1, err, ?_, ?_⟩
      · simp [← ha]
      · intro j hj
        omega
    | none =>
      have hrest : ∃ b ∈ rest, b.2 ≠ none := by
        obtain ⟨b, hb, hb2⟩ := h
        rcases List.mem_cons.1 hb with rfl | hb
        · exact absurd ha hb2
        · exact ⟨b, hb, hb2⟩
      obtain ⟨i, r, err, hi, hfirst⟩ := ih hrest
      refine ⟨i + 1, r, err, by simpa using hi, ?_⟩
      intro j hj b hb
      cases j with
      | zero =>
        simp only [List.getElem?_cons_zero, Option.some.injEq] at hb
        rw [← hb]
        exact ha
      | succ j => exact hfirst j (by omega) b (by simpa using hb)

/-- The watch loop calls a leading part of the transports it is given, in order. -/
theorem WatchData_loop_trace (env : Env T R W CC RC M) (resyncName : String) (changeChan : CC)
    (resyncChan : RC) (keyPrefixes : List String) (ts : List T) (registrations : List R)
    (s : State T R W CC RC M) :
    ∃ n : Nat, n ≤ ts.length ∧
      (TransportAggregator.WatchData.loop env resyncName changeChan resyncChan keyPrefixes
        ts registrations s).2.trace
      = s.trace ++ (ts.take n).map
          (fun t => Event.WatchData t resyncName changeChan resyncChan keyPrefixes) := by
  by_cases h : ∃ a ∈ watchAnswers env resyncName changeChan resyncChan keyPrefixes ts s.world,
      a.2 ≠ none
  · obtain ⟨i, r, err, hi, hfirst⟩ := exists_first_failure _ h
    have hlt : i < ts.length := by
      have := (List.getElem?_eq_some_iff.1 hi).1
      rwa [watchAnswers_length] at this
    exact ⟨i + 1, hlt, (WatchData_loop_fail env resyncName changeChan resyncChan keyPrefixes
      ts registrations s i r err hi hfirst).2⟩
  · have hall : ∀ a ∈ watchAnswers env resyncName changeChan resyncChan keyPrefixes ts
        s.world, a.2 = none := by
      intro a ha
      by_contra hne
      exact h ⟨a, ha, hne⟩
    refine ⟨ts.length, le_refl _, ?_⟩
    rw [List.take_length]
    exact (WatchData_loop_ok env resyncName changeChan resyncChan keyPrefixes
      ts registrations s hall).2

/-- The loop of `CloseAll` closes every registration it is given as an object of its own,
in order. -/
theorem CloseAll_loop_trace (env : Env T R W CC RC M) (rs : List R)
    (details : List (Option GoError)) (s : State T R W CC RC M) :
    (safeclose.CloseAll.loop env (rs.map Object.registration) details s).2.trace
      = s.trace ++ rs.map Event.Close := by
  induction rs generalizing details s with
  | nil => simp [safeclose.CloseAll.loop]
  | cons r rest ih => simp [safeclose.CloseAll.loop, ih, callClose]

/-- The loop of `CloseAll` collects the answers of the registrations it is given as objects
of their own. -/
theorem CloseAll_loop_details (env : Env T R W CC RC M) (rs : List R)
    (details : List (Option GoError)) (s : State T R W CC RC M) :
    (safeclose.CloseAll.loop env (rs.map Object.registration) details s).1
      = details ++ closeAnswers env rs s.world := by
  induction rs generalizing details s with
  | nil => simp [safeclose.CloseAll.loop, closeAnswers]
  | cons r rest ih => simp [safeclose.CloseAll.loop, ih, callClose, closeAnswers]

/-- Handed the slice as one object, `CloseAll` calls nothing: `Close` of the aggregated
registration returns nil and leaves the state as it was, whatever `Registrations` holds. -/
theorem Close_unspread (env : Env T R W CC RC M) (wa : AggregatedRegistration R)
    (s : State T R W CC RC M) : wa.Close env s = (none, s) := by
  simp [AggregatedRegistration.Close, safeclose.CloseAll, safeclose.CloseAll.loop]

/-- The publish loop over a sequence followed by another is the loop over the second,
started from where the loop over the first ends. -/
theorem PublishData_loop_append (env : Env T R W CC RC M) (key : String) (data : M)
    (ts us : List T) (wasError : Option GoError) (s : State T R W CC RC M) :
    TransportAggregator.PublishData.loop env key data (ts ++ us) wasError s
      = TransportAggregator.PublishData.loop env key data us
          (TransportAggregator.PublishData.loop env key data ts wasError s).1
          (TransportAggregator.PublishData.loop env key data ts wasError s).2 := by
  induction ts generalizing wasError s with
  | nil => simp [TransportAggregator.PublishData.loop]
  | cons t rest ih =>
    simp only [List.cons_append, TransportAggregator.PublishData.loop]
    cases h : (callPublishData env t key data s).1 with
    | none => exact ih _ _
    | some err => exact ih _ _

/-- The result of the watch loop is settled by the answers of the transports. -/
theorem WatchData_loop_result_congr (env env2 : Env T R W CC RC M) (resyncName : String)
    (changeChan : CC) (resyncChan : RC) (keyPrefixes : List String) (ts : List T)
    (registrations : List R) (s s2 : State T R W CC RC M)
    (h : watchAnswers env resyncName changeChan resyncChan keyPrefixes ts s.world
      = watchAnswers env2 resyncName changeChan resyncChan keyPrefixes ts s2.world) :
    (TransportAggregator.WatchData.loop env resyncName changeChan resyncChan keyPrefixes
        ts registrations s).1
      = (TransportAggregator.WatchData.loop env2 resyncName changeChan resyncChan keyPrefixes
        ts registrations s2).1 := by
  by_cases hf : ∃ a ∈ watchAnswers env resyncName changeChan resyncChan keyPrefixes ts
      s.world, a.2 ≠ none
  · obtain ⟨i, r, err, hi, hfirst⟩ := exists_first_failure _ hf
    rw [(WatchData_loop_fail env resyncName changeChan resyncChan keyPrefixes ts
      registrations s i r err hi hfirst).1]
    rw [h] at hi hfirst
    rw [(WatchData_loop_fail env2 resyncName changeChan resyncChan keyPrefixes ts
      registrations s2 i r err hi hfirst).1]
  · have hall : ∀ a ∈ watchAnswers env resyncName changeChan resyncChan keyPrefixes ts
        s.world, a.2 = none := by
      intro a ha
      by_contra hne
      exact hf ⟨a, ha, hne⟩
    rw [(WatchData_loop_ok env resyncName changeChan resyncChan keyPrefixes ts
      registrations s hall).1]
    rw [h] at hall
    rw [(WatchData_loop_ok env2 resyncName changeChan resyncChan keyPrefixes ts
      registrations s2 hall).1, h]

/-- A sequence of fan-out calls gives back the aggregator it was run on. -/
theorem FanOutCall_runAll_fst (env : Env T R W CC RC M) (ta : TransportAggregator T)
    (calls : List (FanOutCall CC RC M)) (s : State T R W CC RC M) :
    (FanOutCall.runAll env ta calls s).1 = ta := by
  induction calls generalizing s with
  | nil => rfl
  | cons call rest ih =>
    simp only [FanOutCall.runAll]
    cases call <;> simp only [FanOutCall.run, ih]

end Lemmas

section InitLemmas

variable {K SL B Wt G T W : Type}

theorem InitCall_run_Adapters (deps : Deps K SL B Wt G T W) (ta : TransportAggregator T)
    (call : InitCall K SL) (w : W) :
    (InitCall.run deps ta call w).1.Adapters = ta.Adapters ++ [(InitCall.adapter deps call w).1]
    ∧ (InitCall.run deps ta call w).2 = (InitCall.adapter deps call w).2 := by
  cases call <;> exact ⟨rfl, rfl⟩

theorem InitCall_runAll_Adapters (deps : Deps K SL B Wt G T W) (ta : TransportAggregator T)
    (calls : List (InitCall K SL)) (w : W) :
    (InitCall.runAll deps ta calls w).1.Adapters
      = ta.Adapters ++ InitCall.adapters deps calls w := by
  induction calls generalizing ta w with
  | nil => simp [InitCall.runAll, InitCall.adapters]
  | cons call rest ih =>
    simp only [InitCall.runAll, InitCall.adapters, ih]
    rw [(InitCall_run_Adapters deps ta call w).1, (InitCall_run_Adapters deps ta call w).2]
    simp

theorem InitCall_adapters_length (deps : Deps K SL B Wt G T W)
    (calls : List (InitCall K SL)) (w : W) :
    (InitCall.adapters deps calls w).length = calls.length := by
  induction calls generalizing w with
  | nil => rfl
  | cons call rest ih => simp [InitCall.adapters, ih]

end InitLemmas

/-! ## The concrete world, evaluated -/

/-- Transports `[A ok, B fails, C ok]`: `PublishData` returns the error of `B`. -/
theorem demo_PublishData_B_fails :
    (TransportAggregator.PublishData demoEnv ⟨[1, 2, 3]⟩ "k" "m" demoState).1 = some eB := by
  decide

/-- Transports `[A ok, B fails, C fails]`: `PublishData` returns the error of `C`. -/
theorem demo_PublishData_B_C_fail :
    (TransportAggregator.PublishData demoEnv ⟨[1, 2, 4]⟩ "k" "m" demoState).1 = some eC := by
  decide

/-- Transports `[A ok, B fails, C ok]`: `PublishData` calls all three, in order. -/
theorem demo_PublishData_trace :
    (TransportAggregator.PublishData demoEnv ⟨[1, 2, 3]⟩ "k" "m" demoState).2.trace
      = [Event.PublishData 1 "k" "m", Event.PublishData 2 "k" "m",
         Event.PublishData 3 "k" "m"] := by
  decide

/-- Transports `[A ok, B fails, C ok]`: `WatchData` returns the error of `B` and no
registration, and calls `A` and `B` only. -/
theorem demo_WatchData_B_fails :
    (TransportAggregator.WatchData demoEnv ⟨[1, 2, 3]⟩ "n" 7 8 ["p"] demoState).1
      = (none, some eB)
    ∧ (TransportAggregator.WatchData demoEnv ⟨[1, 2, 3]⟩ "n" 7 8 ["p"] demoState).2.trace
      = [Event.WatchData 1 "n" 7 8 ["p"], Event.WatchData 2 "n" 7 8 ["p"]] := by
  decide

/-- Transports `[A ok, C ok, A ok]`: `WatchData` returns the three registrations in order. -/
theorem demo_WatchData_ok :
    (TransportAggregator.WatchData demoEnv ⟨[1, 3, 1]⟩ "n" 7 8 ["p"] demoState).1
      = (some ⟨[10, 31, 12]⟩, none) := by
  decide

/-- Registrations `[rA, rC]` where closing `rA` fails, handed to `CloseAll` as two objects:
both are closed, and `CloseAll` returns an error. -/
theorem demo_CloseAll_spread :
    (safeclose.CloseAll demoEnv [Object.registration 10, Object.registration 31]
        demoState).1.2 = some ⟨"close errors"⟩
    ∧ (safeclose.CloseAll demoEnv [Object.registration 10, Object.registration 31]
        demoState).2.trace = [Event.Close 10, Event.Close 31] := by
  decide

/-- No transport: `WatchData` returns an empty registration and no error, where
`PublishData` returns an error; neither calls anything. -/
theorem demo_no_transport :
    (TransportAggregator.WatchData demoEnv ⟨[]⟩ "n" 7 8 ["p"] demoState).1
      = (some ⟨[]⟩, none)
    ∧ (TransportAggregator.WatchData demoEnv ⟨[]⟩ "n" 7 8 ["p"] demoState).2.trace = []
    ∧ (TransportAggregator.PublishData demoEnv ⟨[]⟩ "k" "m" demoState).1
      = some ⟨"No transport is availabel in aggregator"⟩ := by
  decide

/-- Appending the succeeding `A` to no transport at all does change the result of
`PublishData`, from the "no transport" error to nil. -/
theorem demo_PublishData_append_to_empty :
    (TransportAggregator.PublishData demoEnv ⟨[]⟩ "k" "m" demoState).1
      = some ⟨"No transport is availabel in aggregator"⟩
    ∧ (TransportAggregator.PublishData demoEnv ⟨[] ++ [1]⟩ "k" "m" demoState).1 = none := by
  decide

/-- Appending the succeeding `C` to `[A ok, B fails]` keeps the error of `B`; appending the
failing `C` replaces it. -/
theorem demo_PublishData_append :
    (TransportAggregator.PublishData demoEnv ⟨[1, 2] ++ [3]⟩ "k" "m" demoState).1 = some eB
    ∧ (TransportAggregator.PublishData demoEnv ⟨[1, 2] ++ [4]⟩ "k" "m" demoState).1
      = some eC := by
  decide

/-! ## The claims -/

section Claims

variable {T R W CC RC M : Type}

/-- C1: for every key and message, `PublishData` on an aggregator whose `Adapters` is
empty returns the non-nil "no transport" error built by `fmt.Errorf`, and calls no
transport: the trace and the world are as they were. -/
theorem PublishData_no_transport (env : Env T R W CC RC M) (ta : TransportAggregator T)
    (key : String) (data : M) (s : State T R W CC RC M) (h : ta.Adapters = []) :
    (ta.PublishData env key data s).1 = fmt.Errorf "No transport is availabel in aggregator"
    ∧ (ta.PublishData env key data s).1 ≠ none
    ∧ (ta.PublishData env key data s).2.trace = s.trace
    ∧ (ta.PublishData env key data s).2.world = s.world := by
  simp [TransportAggregator.PublishData, h, fmt.Errorf]

/-- Witness of C1: the empty aggregator in the concrete world. -/
theorem PublishData_no_transport_witness :
    (TransportAggregator.mk ([] : List Nat)).Adapters = []
    ∧ (TransportAggregator.PublishData demoEnv ⟨[]⟩ "k" "m" demoState).1
        = fmt.Errorf "No transport is availabel in aggregator"
    ∧ (TransportAggregator.PublishData demoEnv ⟨[]⟩ "k" "m" demoState).1 ≠ none
    ∧ (TransportAggregator.PublishData demoEnv ⟨[]⟩ "k" "m" demoState).2.trace
        = demoState.trace
    ∧ (TransportAggregator.PublishData demoEnv ⟨[]⟩ "k" "m" demoState).2.world
        = demoState.world :=
  ⟨rfl, PublishData_no_transport demoEnv ⟨[]⟩ "k" "m" demoState rfl⟩

/-- C2: for every non-empty `Adapters` and whatever the transports answer, the calls that
`PublishData` makes are exactly one `PublishData` call on each registered transport, in
slice order: the calls appended to the trace are the whole `Adapters` sequence. -/
theorem PublishData_calls_every_transport (env : Env T R W CC RC M)
    (ta : TransportAggregator T) (key : String) (data : M) (s : State T R W CC RC M)
    (h : ta.Adapters ≠ []) :
    (ta.PublishData env key data s).2.trace
      = s.trace ++ ta.Adapters.map (fun t => Event.PublishData t key data) := by
  have hlen : ¬ ta.Adapters.length = 0 := by
    intro h0
    exact h (List.length_eq_zero.1 h0)
  simp only [TransportAggregator.PublishData, hlen, if_false]
  exact PublishData_loop_trace env key data ta.Adapters none s

/-- Witness of C2: transports `[A ok, B fails, C ok]` in the concrete world. -/
theorem PublishData_calls_every_transport_witness :
    (TransportAggregator.mk [1, 2, 3]).Adapters ≠ []
    ∧ (TransportAggregator.PublishData demoEnv ⟨[1, 2, 3]⟩ "k" "m" demoState).2.trace
      = demoState.trace ++ [Event.PublishData 1 "k" "m", Event.PublishData 2 "k" "m",
          Event.PublishData 3 "k" "m"] :=
  ⟨by decide,
    PublishData_calls_every_transport demoEnv ⟨[1, 2, 3]⟩ "k" "m" demoState (by decide)⟩

/-- C3: for every non-empty `Adapters`, with `answers` the answers of the transports in
registration order: `PublishData` returns nil exactly when every answer is nil, and it
returns `err` exactly when some transport answered `err` and every transport after it
answered nil, that is, the unwrapped error of the last failing transport. -/
theorem PublishData_returns_last_failure (env : Env T R W CC RC M)
    (ta : TransportAggregator T) (key : String) (data : M) (s : State T R W CC RC M)
    (h : ta.Adapters ≠ []) :
    (publishAnswers env key data ta.Adapters s.world).length = ta.Adapters.length
    ∧ ((ta.PublishData env key data s).1 = none ↔
        ∀ a ∈ publishAnswers env key data ta.Adapters s.world, a = none)
    ∧ ∀ err : GoError, (ta.PublishData env key data s).1 = some err ↔
        ∃ i : Nat, (publishAnswers env key data ta.Adapters s.world)[i]? = some (some err) ∧
          ∀ j : Nat, i < j → ∀ e : GoError,
            (publishAnswers env key data ta.Adapters s.world)[j]? ≠ some (some e) := by
  have hlen : ¬ ta.Adapters.length = 0 := by
    intro h0
    exact h (List.length_eq_zero.1 h0)
  have hret : (ta.PublishData env key data s).1
      = lastFailure (publishAnswers env key data ta.Adapters s.world) := by
    simp only [TransportAggregator.PublishData, hlen, if_false]
    rw [PublishData_loop_result]
    cases lastFailure (publishAnswers env key data ta.Adapters s.world) <;> rfl
  refine ⟨publishAnswers_length env key data ta.Adapters s.world, ?_, ?_⟩
  · rw [hret]
    exact lastFailure_eq_none _
  · intro err
    rw [hret]
    exact lastFailure_eq_some _ err

/-- Witness of C3: transports `[A ok, B fails, C fails]` in the concrete world. -/
theorem PublishData_returns_last_failure_witness :
    (TransportAggregator.mk [1, 2, 4]).Adapters ≠ []
    ∧ (publishAnswers demoEnv "k" "m" [1, 2, 4] demoState.world).length = [1, 2, 4].length
    ∧ ((TransportAggregator.PublishData demoEnv ⟨[1, 2, 4]⟩ "k" "m" demoState).1 = none ↔
        ∀ a ∈ publishAnswers demoEnv "k" "m" [1, 2, 4] demoState.world, a = none)
    ∧ ∀ err : GoError,
        (TransportAggregator.PublishData demoEnv ⟨[1, 2, 4]⟩ "k" "m" demoState).1 = some err ↔
        ∃ i : Nat, (publishAnswers demoEnv "k" "m" [1, 2, 4] demoState.world)[i]?
            = some (some err) ∧
          ∀ j : Nat, i < j → ∀ e : GoError,
            (publishAnswers demoEnv "k" "m" [1, 2, 4] demoState.world)[j]? ≠ some (some e) :=
  ⟨by decide,
    PublishData_returns_last_failure demoEnv ⟨[1, 2, 4]⟩ "k" "m" demoState (by decide)⟩

/-- C4: whenever at least one transport answers `WatchData` with an error, the answers have
a first failure, at some index `i` with error `err`, and the aggregated `WatchData`
returns exactly `err` together with a nil registration, so that no registration obtained
from an earlier transport is part of what is returned. -/
theorem WatchData_returns_first_failure (env : Env T R W CC RC M)
    (ta : TransportAggregator T) (resyncName : String) (changeChan : CC) (resyncChan : RC)
    (keyPrefixes : List String) (s : State T R W CC RC M)
    (h : ∃ a ∈ watchAnswers env resyncName changeChan resyncChan keyPrefixes ta.Adapters
      s.world, a.2 ≠ none) :
    ∃ (i : Nat) (r : R) (err : GoError),
      (watchAnswers env resyncName changeChan resyncChan keyPrefixes ta.Adapters s.world)[i]?
        = some (r, some err)
      ∧ (∀ j : Nat, j < i → ∀ a : R × Option GoError,
          (watchAnswers env resyncName changeChan resyncChan keyPrefixes ta.Adapters
            s.world)[j]? = some a → a.2 = none)
      ∧ (ta.WatchData env resyncName changeChan resyncChan keyPrefixes s).1
        = (none, some err) := by
  obtain ⟨i, r, err, hi, hfirst⟩ := exists_first_failure _ h
  exact ⟨i, r, err, hi, hfirst,
    (WatchData_loop_fail env resyncName changeChan resyncChan keyPrefixes ta.Adapters [] s
      i r err hi hfirst).1⟩

/-- Witness of C4: transports `[A ok, B fails, C fails]` in the concrete world. -/
theorem WatchData_returns_first_failure_witness :
    (∃ a ∈ watchAnswers demoEnv "n" 7 8 ["p"] (TransportAggregator.mk [1, 2, 4]).Adapters
      demoState.world, a.2 ≠ none)
    ∧ ∃ (i : Nat) (r : Nat) (err : GoError),
      (watchAnswers demoEnv "n" 7 8 ["p"] (TransportAggregator.mk [1, 2, 4]).Adapters
        demoState.world)[i]? = some (r, some err)
      ∧ (∀ j : Nat, j < i → ∀ a : Nat × Option GoError,
          (watchAnswers demoEnv "n" 7 8 ["p"] (TransportAggregator.mk [1, 2, 4]).Adapters
            demoState.world)[j]? = some a → a.2 = none)
      ∧ (TransportAggregator.WatchData demoEnv ⟨[1, 2, 4]⟩ "n" 7 8 ["p"] demoState).1
        = (none, some err) :=
  ⟨⟨(21, some eB), by decide, by decide⟩,
    WatchData_returns_first_failure demoEnv ⟨[1, 2, 4]⟩ "n" 7 8 ["p"] demoState
      ⟨(21, some eB), by decide, by decide⟩⟩

/-- C5: whenever every transport answers `WatchData` without error, the aggregated
`WatchData` returns a nil error and an `AggregatedRegistration` whose `Registrations` are
the registrations answered by the transports, one per transport and in the order of
`Adapters`. -/
theorem WatchData_collects_registrations (env : Env T R W CC RC M)
    (ta : TransportAggregator T) (resyncName : String) (changeChan : CC) (resyncChan : RC)
    (keyPrefixes : List String) (s : State T R W CC RC M)
    (h : ∀ a ∈ watchAnswers env resyncName changeChan resyncChan keyPrefixes ta.Adapters
      s.world, a.2 = none) :
    (ta.WatchData env resyncName changeChan resyncChan keyPrefixes s).1
      = (some (AggregatedRegistration.mk
          ((watchAnswers env resyncName changeChan resyncChan keyPrefixes ta.Adapters
            s.world).map Prod.fst)), none)
    ∧ ((watchAnswers env resyncName changeChan resyncChan keyPrefixes ta.Adapters
          s.world).map Prod.fst).length = ta.Adapters.length := by
  refine ⟨?_, by rw [List.length_map, watchAnswers_length]⟩
  have := (WatchData_loop_ok env resyncName changeChan resyncChan keyPrefixes ta.Adapters []
    s h).1
  simpa [TransportAggregator.WatchData] using this

/-- Witness of C5: transports `[A ok, C ok, A ok]` in the concrete world. -/
theorem WatchData_collects_registrations_witness :
    (∀ a ∈ watchAnswers demoEnv "n" 7 8 ["p"] (TransportAggregator.mk [1, 3, 1]).Adapters
      demoState.world, a.2 = none)
    ∧ (TransportAggregator.WatchData demoEnv ⟨[1, 3, 1]⟩ "n" 7 8 ["p"] demoState).1
      = (some (AggregatedRegistration.mk
          ((watchAnswers demoEnv "n" 7 8 ["p"] (TransportAggregator.mk [1, 3, 1]).Adapters
            demoState.world).map Prod.fst)), none)
    ∧ ((watchAnswers demoEnv "n" 7 8 ["p"] (TransportAggregator.mk [1, 3, 1]).Adapters
          demoState.world).map Prod.fst).length
        = (TransportAggregator.mk [1, 3, 1]).Adapters.length :=
  ⟨by decide,
    WatchData_collects_registrations demoEnv ⟨[1, 3, 1]⟩ "n" 7 8 ["p"] demoState
      (by decide)⟩

/-- C6, evaluated at `Registrations = [rA, rC]` where closing `rA` fails: the claim has
`Close` called once on `rA` and once on `rC`, but `AggregatedRegistration.Close` makes no
`Close` call at all, because line 88 hands `CloseAll` the slice as one object. Handing it
the two registrations would have closed both. -/
theorem Close_closes_no_registration :
    (AggregatedRegistration.Close demoEnv ⟨[10, 31]⟩ demoState).2.trace = []
    ∧ (AggregatedRegistration.Close demoEnv ⟨[10, 31]⟩ demoState).2.trace
      ≠ demoState.trace ++ [Event.Close 10, Event.Close 31]
    ∧ (safeclose.CloseAll demoEnv [Object.registration 10, Object.registration 31]
        demoState).2.trace = demoState.trace ++ [Event.Close 10, Event.Close 31] := by
  decide

/-- C7, evaluated at `Registrations = [rA, rC]` where closing `rA` fails: the claim has
`AggregatedRegistration.Close` return a non-nil error, but it returns nil, because line 88
hands `CloseAll` the slice as one object and no registration is closed. Handing it the two
registrations would have returned an error. -/
theorem Close_reports_no_failure :
    closeAnswers demoEnv [10, 31] demoState.world = [some eCloseA, none]
    ∧ (AggregatedRegistration.Close demoEnv ⟨[10, 31]⟩ demoState).1 = none
    ∧ (safeclose.CloseAll demoEnv [Object.registration 10, Object.registration 31]
        demoState).1.2 ≠ none := by
  decide

/-- C8: `InitTransport` and `InitGrpcTransport` each append exactly the one transport they
construct at the end of `Adapters`, keeping the existing elements and their order, with no
deduplication. Hence after any sequence `calls` of registration calls `Adapters` is the
old sequence followed by the constructed transports in call order, one per call;
`PublishData` then calls exactly these transports in that order; `WatchData` calls them in
that order too, up to and including the first one that fails, and all of them when none
fails. -/
theorem registration_order {K SL B Wt G : Type} (deps : Deps K SL B Wt G T W)
    (env : Env T R W CC RC M) (ta : TransportAggregator T) (kvPlugin : K) (sl : SL)
    (name : String) (calls : List (InitCall K SL)) (w : W) (key : String) (data : M)
    (resyncName : String) (changeChan : CC) (resyncChan : RC) (keyPrefixes : List String)
    (s : State T R W CC RC M) :
    (ta.InitTransport deps kvPlugin sl name w).1.Adapters
      = ta.Adapters ++ [(TransportAggregator.InitTransport.adapter deps kvPlugin sl name w).1]
    ∧ (ta.InitGrpcTransport deps w).1.Adapters
      = ta.Adapters ++ [(TransportAggregator.InitGrpcTransport.adapter deps w).1]
    ∧ (InitCall.runAll deps ta calls w).1.Adapters
      = ta.Adapters ++ InitCall.adapters deps calls w
    ∧ (InitCall.adapters deps calls w).length = calls.length
    ∧ ((InitCall.runAll deps ta calls w).1.PublishData env key data s).2.trace
      = s.trace ++ (ta.Adapters ++ InitCall.adapters deps calls w).map
          (fun t => Event.PublishData t key data)
    ∧ (∀ (i : Nat) (r : R) (err : GoError),
        (watchAnswers env resyncName changeChan resyncChan keyPrefixes
          (ta.Adapters ++ InitCall.adapters deps calls w) s.world)[i]? = some (r, some err) →
        (∀ j : Nat, j < i → ∀ a : R × Option GoError,
          (watchAnswers env resyncName changeChan resyncChan keyPrefixes
            (ta.Adapters ++ InitCall.adapters deps calls w) s.world)[j]? = some a →
              a.2 = none) →
        i < (ta.Adapters ++ InitCall.adapters deps calls w).length
        ∧ ((InitCall.runAll deps ta calls w).1.WatchData env resyncName changeChan resyncChan
            keyPrefixes s).2.trace
          = s.trace ++ ((ta.Adapters ++ InitCall.adapters deps calls w).take (i + 1)).map
              (fun t => Event.WatchData t resyncName changeChan resyncChan keyPrefixes))
    ∧ ((∀ a ∈ watchAnswers env resyncName changeChan resyncChan keyPrefixes
          (ta.Adapters ++ InitCall.adapters deps calls w) s.world, a.2 = none) →
        ((InitCall.runAll deps ta calls w).1.WatchData env resyncName changeChan resyncChan
            keyPrefixes s).2.trace
          = s.trace ++ (ta.Adapters ++ InitCall.adapters deps calls w).map
              (fun t => Event.WatchData t resyncName changeChan resyncChan keyPrefixes)) := by
  refine ⟨rfl, rfl, InitCall_runAll_Adapters deps ta calls w,
    InitCall_adapters_length deps calls w, ?_, ?_, ?_⟩
  · rw [← InitCall_runAll_Adapters deps ta calls w]
    simp only [TransportAggregator.PublishData]
    split
    · rename_i h0
      simp [List.length_eq_zero.1 h0]
    · exact PublishData_loop_trace env key data _ none s
  · rw [← InitCall_runAll_Adapters deps ta calls w]
    intro i r err hi hfirst
    constructor
    · have := (List.getElem?_eq_some_iff.1 hi).1
      rwa [watchAnswers_length] at this
    · exact (WatchData_loop_fail env resyncName changeChan resyncChan keyPrefixes
        _ [] s i r err hi hfirst).2
  · rw [← InitCall_runAll_Adapters deps ta calls w]
    intro hall
    exact (WatchData_loop_ok env resyncName changeChan resyncChan keyPrefixes
      _ [] s hall).2

/-- Witness of C8: in the concrete world, the calls `InitTransport "a"`,
`InitTransport "ab"`, `InitGrpcTransport` on the empty aggregator register `A`, `B`, `C`
in this order; `PublishData` then calls `A`, `B`, `C`, and `WatchData` calls `A`, `B` and
stops at the failing `B`. After `InitTransport "a"`, `InitGrpcTransport` alone, `WatchData`
calls `A`, `C`. -/
theorem registration_order_witness :
    (InitCall.runAll demoDeps ⟨[]⟩
        [InitCall.InitTransport () () "a", InitCall.InitTransport () () "ab",
          InitCall.InitGrpcTransport] 0).1.Adapters = [1, 2, 3]
    ∧ (TransportAggregator.PublishData demoEnv
        (InitCall.runAll demoDeps ⟨[]⟩
          [InitCall.InitTransport () () "a", InitCall.InitTransport () () "ab",
            InitCall.InitGrpcTransport] 0).1 "k" "m" demoState).2.trace
      = [Event.PublishData 1 "k" "m", Event.PublishData 2 "k" "m",
          Event.PublishData 3 "k" "m"]
    ∧ (TransportAggregator.WatchData demoEnv
        (InitCall.runAll demoDeps ⟨[]⟩
          [InitCall.InitTransport () () "a", InitCall.InitTransport () () "ab",
            InitCall.InitGrpcTransport] 0).1 "n" 7 8 ["p"] demoState).2.trace
      = [Event.WatchData 1 "n" 7 8 ["p"], Event.WatchData 2 "n" 7 8 ["p"]]
    ∧ (TransportAggregator.WatchData demoEnv
        (InitCall.runAll demoDeps ⟨[]⟩
          [InitCall.InitTransport () () "a", InitCall.InitGrpcTransport] 0).1
        "n" 7 8 ["p"] demoState).2.trace
      = [Event.WatchData 1 "n" 7 8 ["p"], Event.WatchData 3 "n" 7 8 ["p"]] :=
  ⟨(registration_order demoDeps demoEnv ⟨[]⟩ () () "a"
      [InitCall.InitTransport () () "a", InitCall.InitTransport () () "ab",
        InitCall.InitGrpcTransport] 0 "k" "m" "n" 7 8 ["p"] demoState).2.2.1,
   (registration_order demoDeps demoEnv ⟨[]⟩ () () "a"
      [InitCall.InitTransport () () "a", InitCall.InitTransport () () "ab",
        InitCall.InitGrpcTransport] 0 "k" "m" "n" 7 8 ["p"] demoState).2.2.2.2.1,
   ((registration_order demoDeps demoEnv ⟨[]⟩ () () "a"
      [InitCall.InitTransport () () "a", InitCall.InitTransport () () "ab",
        InitCall.InitGrpcTransport] 0 "k" "m" "n" 7 8 ["p"] demoState).2.2.2.2.2.1 1 21 eB
      (by decide)
      (fun j hj a ha => by
        obtain rfl : j = 0 := by omega
        obtain rfl : a = (10, none) := by
          have h0 : (watchAnswers demoEnv "n" 7 8 ["p"] [1, 2, 3] demoState.world)[0]?
              = some (10, none) := by decide
          exact (Option.some.inj (h0.symm.trans ha)).symm
        rfl)).2,
   (registration_order demoDeps demoEnv ⟨[]⟩ () () "a"
      [InitCall.InitTransport () () "a", InitCall.InitGrpcTransport] 0 "k" "m" "n" 7 8 ["p"]
      demoState).2.2.2.2.2.2 (by decide)⟩

/-- C9: `WatchData` makes no `Close` call, whether it succeeds or a transport fails: the
`Close` calls in the trace after `WatchData` are those that were in it before. -/
theorem WatchData_never_closes (env : Env T R W CC RC M) (ta : TransportAggregator T)
    (resyncName : String) (changeChan : CC) (resyncChan : RC) (keyPrefixes : List String)
    (s : State T R W CC RC M) :
    (ta.WatchData env resyncName changeChan resyncChan keyPrefixes s).2.trace.filter
        Event.isClose
      = s.trace.filter Event.isClose := by
  obtain ⟨n, -, hn⟩ := WatchData_loop_trace env resyncName changeChan resyncChan keyPrefixes
    ta.Adapters [] s
  simp only [TransportAggregator.WatchData, hn, List.filter_append, List.filter_map]
  rw [List.append_right_eq_self, List.map_eq_nil_iff, List.filter_eq_nil_iff]
  intro t _
  simp [Event.isClose]

/-- C10: `WatchData` calls the transports in registration order and stops at the first
failure. If the first failing answer is at index `i`, the calls made are one `WatchData`
call on each of the transports at indices `0..i`, in that order, and none after; if no
answer fails, the calls made are one on each transport, in order. -/
theorem WatchData_call_order (env : Env T R W CC RC M) (ta : TransportAggregator T)
    (resyncName : String) (changeChan : CC) (resyncChan : RC) (keyPrefixes : List String)
    (s : State T R W CC RC M) :
    (∀ (i : Nat) (r : R) (err : GoError),
      (watchAnswers env resyncName changeChan resyncChan keyPrefixes ta.Adapters s.world)[i]?
        = some (r, some err) →
      (∀ j : Nat, j < i → ∀ a : R × Option GoError,
          (watchAnswers env resyncName changeChan resyncChan keyPrefixes ta.Adapters
            s.world)[j]? = some a → a.2 = none) →
      i < ta.Adapters.length
      ∧ (ta.WatchData env resyncName changeChan resyncChan keyPrefixes s).2.trace
        = s.trace ++ (ta.Adapters.take (i + 1)).map
            (fun t => Event.WatchData t resyncName changeChan resyncChan keyPrefixes))
    ∧ ((∀ a ∈ watchAnswers env resyncName changeChan resyncChan keyPrefixes ta.Adapters
          s.world, a.2 = none) →
      (ta.WatchData env resyncName changeChan resyncChan keyPrefixes s).2.trace
        = s.trace ++ ta.Adapters.map
            (fun t => Event.WatchData t resyncName changeChan resyncChan keyPrefixes)) := by
  constructor
  · intro i r err hi hfirst
    constructor
    · have := (List.getElem?_eq_some_iff.1 hi).1
      rwa [watchAnswers_length] at this
    · exact (WatchData_loop_fail env resyncName changeChan resyncChan keyPrefixes
        ta.Adapters [] s i r err hi hfirst).2
  · intro hall
    exact (WatchData_loop_ok env resyncName changeChan resyncChan keyPrefixes
      ta.Adapters [] s hall).2

/-- Witness of C10: in the concrete world, transports `[A ok, B fails, C fails]` have
their first failure at index 1 and `A`, `B` are called; of transports `[A ok, C ok]` both
are called. -/
theorem WatchData_call_order_witness :
    (TransportAggregator.WatchData demoEnv ⟨[1, 2, 4]⟩ "n" 7 8 ["p"] demoState).2.trace
      = demoState.trace ++ [Event.WatchData 1 "n" 7 8 ["p"], Event.WatchData 2 "n" 7 8 ["p"]]
    ∧ (TransportAggregator.WatchData demoEnv ⟨[1, 3]⟩ "n" 7 8 ["p"] demoState).2.trace
      = demoState.trace ++ [Event.WatchData 1 "n" 7 8 ["p"], Event.WatchData 3 "n" 7 8 ["p"]] :=
  ⟨((WatchData_call_order demoEnv ⟨[1, 2, 4]⟩ "n" 7 8 ["p"] demoState).1 1 21 eB
      (by decide)
      (fun j hj a ha => by
        obtain rfl : j = 0 := by omega
        obtain rfl : a = (10, none) := by
          have h0 : (watchAnswers demoEnv "n" 7 8 ["p"]
              (TransportAggregator.mk [1, 2, 4]).Adapters demoState.world)[0]?
              = some (10, none) := by decide
          exact (Option.some.inj (h0.symm.trans ha)).symm
        rfl)).2,
   (WatchData_call_order demoEnv ⟨[1, 3]⟩ "n" 7 8 ["p"] demoState).2 (by decide)⟩

/-- C11: every transport call of the fan-out gets the arguments of the aggregated call.
The calls that `WatchData` appends to the trace are all `WatchData` calls on a registered
transport with the same subscription name, change sink, resync sink and key-prefix list;
the calls that `PublishData` appends are all `PublishData` calls on a registered transport
with the same key and message. -/
theorem fanout_passes_arguments (env : Env T R W CC RC M) (ta : TransportAggregator T)
    (resyncName : String) (changeChan : CC) (resyncChan : RC) (keyPrefixes : List String)
    (key : String) (data : M) (s : State T R W CC RC M) :
    (∃ calls : List (Event T R CC RC M),
      (ta.WatchData env resyncName changeChan resyncChan keyPrefixes s).2.trace
        = s.trace ++ calls
      ∧ ∀ ev ∈ calls, ∃ t ∈ ta.Adapters,
          ev = Event.WatchData t resyncName changeChan resyncChan keyPrefixes)
    ∧ (∃ calls : List (Event T R CC RC M),
      (ta.PublishData env key data s).2.trace = s.trace ++ calls
      ∧ ∀ ev ∈ calls, ∃ t ∈ ta.Adapters, ev = Event.PublishData t key data) := by
  constructor
  · obtain ⟨n, -, hn⟩ := WatchData_loop_trace env resyncName changeChan resyncChan
      keyPrefixes ta.Adapters [] s
    refine ⟨_, hn, ?_⟩
    intro ev hev
    obtain ⟨t, ht, rfl⟩ := List.mem_map.1 hev
    exact ⟨t, List.mem_of_mem_take ht, rfl⟩
  · by_cases h0 : ta.Adapters.length = 0
    · exact ⟨[], by simp [TransportAggregator.PublishData, h0], by simp⟩
    · refine ⟨ta.Adapters.map (fun t => Event.PublishData t key data), ?_, ?_⟩
      · simp only [TransportAggregator.PublishData, h0, if_false]
        exact PublishData_loop_trace env key data ta.Adapters none s
      · intro ev hev
        obtain ⟨t, ht, rfl⟩ := List.mem_map.1 hev
        exact ⟨t, ht, rfl⟩

/-- C12: `WatchData` and `PublishData` leave `Adapters` as it was, after one call and after
any sequence of calls, whatever the outcome; and the result of a call is settled by the
current `Adapters` and the answers of the transports: in two environments and two states,
with whatever calls made before, equal answers give equal results. -/
theorem fanout_leaves_Adapters (env env2 : Env T R W CC RC M) (ta : TransportAggregator T)
    (calls : List (FanOutCall CC RC M)) (resyncName : String) (changeChan : CC)
    (resyncChan : RC) (keyPrefixes : List String) (key : String) (data : M)
    (s s2 : State T R W CC RC M) :
    (∀ call : FanOutCall CC RC M, (FanOutCall.run env ta call s).1.Adapters = ta.Adapters)
    ∧ (FanOutCall.runAll env ta calls s).1.Adapters = ta.Adapters
    ∧ (publishAnswers env key data ta.Adapters s.world
          = publishAnswers env2 key data ta.Adapters s2.world →
        (ta.PublishData env key data s).1 = (ta.PublishData env2 key data s2).1)
    ∧ (watchAnswers env resyncName changeChan resyncChan keyPrefixes ta.Adapters s.world
          = watchAnswers env2 resyncName changeChan resyncChan keyPrefixes ta.Adapters
              s2.world →
        (ta.WatchData env resyncName changeChan resyncChan keyPrefixes s).1
          = (ta.WatchData env2 resyncName changeChan resyncChan keyPrefixes s2).1) := by
  refine ⟨?_, ?_, ?_, ?_⟩
  · intro call
    cases call <;> rfl
  · rw [FanOutCall_runAll_fst]
  · intro h
    by_cases h0 : ta.Adapters.length = 0
    · simp [TransportAggregator.PublishData, h0]
    · simp only [TransportAggregator.PublishData, h0, if_false]
      rw [PublishData_loop_result, PublishData_loop_result, h]
  · intro h
    exact WatchData_loop_result_congr env env2 resyncName changeChan resyncChan keyPrefixes
      ta.Adapters [] s s2 h

/-- Witness of C12: in the concrete world, after a `PublishData` and a `WatchData` call on
transports `[A ok, B fails]` the aggregator still holds `[A, B]`, and a further
`PublishData` returns what it returns in the initial state. -/
theorem fanout_leaves_Adapters_witness :
    (FanOutCall.runAll demoEnv ⟨[1, 2]⟩
        [FanOutCall.PublishData "k" "m", FanOutCall.WatchData "n" 7 8 ["p"]]
        demoState).1.Adapters = [1, 2]
    ∧ (TransportAggregator.PublishData demoEnv ⟨[1, 2]⟩ "k2" "m2" demoState).1
      = (TransportAggregator.PublishData demoEnv ⟨[1, 2]⟩ "k2" "m2"
          (FanOutCall.runAll demoEnv ⟨[1, 2]⟩
            [FanOutCall.PublishData "k" "m", FanOutCall.WatchData "n" 7 8 ["p"]]
            demoState).2).1 :=
  ⟨(fanout_leaves_Adapters demoEnv demoEnv ⟨[1, 2]⟩
      [FanOutCall.PublishData "k" "m", FanOutCall.WatchData "n" 7 8 ["p"]]
      "n" 7 8 ["p"] "k2" "m2" demoState demoState).2.1,
   (fanout_leaves_Adapters demoEnv demoEnv ⟨[1, 2]⟩ [] "n" 7 8 ["p"] "k2" "m2" demoState
      (FanOutCall.runAll demoEnv ⟨[1, 2]⟩
        [FanOutCall.PublishData "k" "m", FanOutCall.WatchData "n" 7 8 ["p"]]
        demoState).2).2.2.1 (by decide)⟩

/-- C13: `WatchData` on an aggregator whose `Adapters` is empty does not fail: it returns a
nil error and a non-nil `AggregatedRegistration` whose `Registrations` is empty, and calls
no transport, the state being as it was; `PublishData` on the same aggregator returns a
non-nil error. -/
theorem WatchData_no_transport (env : Env T R W CC RC M) (ta : TransportAggregator T)
    (resyncName : String) (changeChan : CC) (resyncChan : RC) (keyPrefixes : List String)
    (key : String) (data : M) (s : State T R W CC RC M) (h : ta.Adapters = []) :
    (ta.WatchData env resyncName changeChan resyncChan keyPrefixes s).1
      = (some (AggregatedRegistration.mk []), none)
    ∧ (ta.WatchData env resyncName changeChan resyncChan keyPrefixes s).2.trace = s.trace
    ∧ (ta.WatchData env resyncName changeChan resyncChan keyPrefixes s).2.world = s.world
    ∧ (ta.PublishData env key data s).1 ≠ none := by
  simp [TransportAggregator.WatchData, TransportAggregator.WatchData.loop,
    TransportAggregator.PublishData, h, fmt.Errorf]

/-- Witness of C13: the empty aggregator in the concrete world. -/
theorem WatchData_no_transport_witness :
    (TransportAggregator.mk ([] : List Nat)).Adapters = []
    ∧ (TransportAggregator.WatchData demoEnv ⟨[]⟩ "n" 7 8 ["p"] demoState).1
      = (some (AggregatedRegistration.mk []), none)
    ∧ (TransportAggregator.WatchData demoEnv ⟨[]⟩ "n" 7 8 ["p"] demoState).2.trace
      = demoState.trace
    ∧ (TransportAggregator.WatchData demoEnv ⟨[]⟩ "n" 7 8 ["p"] demoState).2.world
      = demoState.world
    ∧ (TransportAggregator.PublishData demoEnv ⟨[]⟩ "k" "m" demoState).1 ≠ none :=
  ⟨rfl, WatchData_no_transport demoEnv ⟨[]⟩ "n" 7 8 ["p"] "k" "m" demoState rfl⟩

/-- C14: for every non-empty sequence `ts` and every transport `t`, with the answer of `t`
taken in the world that `PublishData` over `ts` leaves: `PublishData` over `ts` followed by
`t` returns the error of `t` when `t` fails, and exactly what `PublishData` over `ts`
returns when `t` succeeds. -/
theorem PublishData_append_transport (env : Env T R W CC RC M) (ts : List T) (t : T)
    (key : String) (data : M) (s : State T R W CC RC M) (h : ts ≠ []) :
    (∀ err : GoError,
      (env.PublishData t key data
          (TransportAggregator.PublishData env ⟨ts⟩ key data s).2.world).1 = some err →
      (TransportAggregator.PublishData env ⟨ts ++ [t]⟩ key data s).1 = some err)
    ∧ ((env.PublishData t key data
          (TransportAggregator.PublishData env ⟨ts⟩ key data s).2.world).1 = none →
      (TransportAggregator.PublishData env ⟨ts ++ [t]⟩ key data s).1
        = (TransportAggregator.PublishData env ⟨ts⟩ key data s).1) := by
  have hlen : ¬ ts.length = 0 := by
    intro h0
    exact h (List.length_eq_zero.1 h0)
  have hlen2 : ¬ (ts ++ [t]).length = 0 := by simp
  simp only [TransportAggregator.PublishData, hlen, hlen2, if_false,
    PublishData_loop_append, TransportAggregator.PublishData.loop, callPublishData]
  constructor
  · intro err he
    simp only [he]
  · intro hn
    simp only [hn]

/-- Witness of C14: appending the succeeding `C` to `[A ok, B fails]` in the concrete
world. -/
theorem PublishData_append_transport_witness :
    [1, 2] ≠ ([] : List Nat)
    ∧ (∀ err : GoError,
      (demoEnv.PublishData 3 "k" "m"
          (TransportAggregator.PublishData demoEnv ⟨[1, 2]⟩ "k" "m" demoState).2.world).1
        = some err →
      (TransportAggregator.PublishData demoEnv ⟨[1, 2] ++ [3]⟩ "k" "m" demoState).1
        = some err)
    ∧ ((demoEnv.PublishData 3 "k" "m"
          (TransportAggregator.PublishData demoEnv ⟨[1, 2]⟩ "k" "m" demoState).2.world).1
        = none →
      (TransportAggregator.PublishData demoEnv ⟨[1, 2] ++ [3]⟩ "k" "m" demoState).1
        = (TransportAggregator.PublishData demoEnv ⟨[1, 2]⟩ "k" "m" demoState).1) :=
  ⟨by decide, PublishData_append_transport demoEnv [1, 2] 3 "k" "m" demoState (by decide)⟩

end Claims

end adapters
